import Mathlib

/-!
Verification of the analysis-wizard workflow orchestrator
(`AnalysisPage`, frontend analysis page): session identity, the
collection / training / prediction operations, the 15-second polling
machinery, and the timestamp-based record filter.

The JavaScript source is shallowly embedded: React state becomes an
explicit `AnalysisState` record, each handler becomes a pure function
from the state and the (externally supplied) network outcomes to a new
state plus the observable effects (HTTP requests issued, alerts shown,
timers scheduled), and every JS value that the logic inspects only for
truthiness or numeric coercion is modelled by the results of those
inspections.
-/

namespace ETongue

/-- A JS number as the orchestrator logic observes it: `some n` is a
finite number (the logic only ever compares and serializes integral
timestamps/field values), `none` is `NaN`. -/
abbrev JSNum := Option Int

/-- Truthiness of a JS number: `NaN`, and `0`, are falsy. -/
def jsNumTruthy : JSNum → Bool
  | none => false
  | some n => n != 0

/-- A JS value sitting in one of a record's timestamp-alias fields,
abstracted to exactly what lines 145-149 inspect: its truthiness, the
result of `Date.parse` on it (`none` = `NaN`), and the result of
`Number()` on it (`none` = `NaN`). -/
structure TsVal where
  truthy : Bool
  dateParse : JSNum
  toNumber : JSNum
deriving DecidableEq, Repr

/-- A backend record (`Entry`/`Prediction`): the orchestrator only reads
the four timestamp-alias fields; `none` means the field is absent. -/
structure RawEntry where
  timestamp : Option TsVal := none
  time : Option TsVal := none
  created_at : Option TsVal := none
  createdAt : Option TsVal := none
deriving DecidableEq, Repr

/-- JS `a || b` on an optional field value: a present truthy value wins,
otherwise fall through (absent fields are `undefined`, hence falsy). -/
def jsOrTs : Option TsVal → Option TsVal → Option TsVal
  | some v, b => if v.truthy then some v else b
  | none, b => b

/-- `e.timestamp || e.time || e.created_at || e.createdAt || null`
(line 145-146): the first truthy alias value, else `null`. -/
def tsOf (e : RawEntry) : Option TsVal :=
  jsOrTs e.timestamp (jsOrTs e.time (jsOrTs e.created_at (jsOrTs e.createdAt none)))

/-- JS `a || b` on numbers where `a` may be `NaN` (`none`): `NaN` and `0`
are falsy. -/
def jsOrNum : JSNum → JSNum → JSNum
  | some n, b => if n = 0 then b else some n
  | none, b => b

/-- `Date.parse(ts) || Number(ts) || null` (line 148): the first truthy
parse result, else `null` (`none`). -/
def parsedOf (v : TsVal) : JSNum :=
  jsOrNum v.dateParse (jsOrNum v.toNumber none)

/-- The record filter of lines 143-150 (and, verbatim identical code, of
lines 277-284 in the prediction fetch): keep a record iff the session
start timestamp is falsy, or the record has no truthy timestamp alias,
or the coalesced parse result is truthy and `≥` the start timestamp. -/
def keepEntry : Option Int → RawEntry → Bool
  | none, _ => true
  | some st, e =>
    if st = 0 then true
    else
      match tsOf e with
      | none => true
      | some v =>
        match parsedOf v with
        | none => false
        | some p => decide (st ≤ p)

/-- A JSON body that is either a single record or an array of records
(`Array.isArray(gd) ? gd : [gd]`, lines 142 and 276). -/
inductive JsonRecords where
  | single (e : RawEntry)
  | array (es : List RawEntry)
deriving DecidableEq, Repr

/-- `Array.isArray(gd) ? gd : [gd]`. -/
def recordsToList : JsonRecords → List RawEntry
  | .single e => [e]
  | .array es => es

/-- A JS value found in the `status` / `status_code` field of a `/picron`
poll response, abstracted to its `Number()` coercion (line 164). -/
structure StatusVal where
  toNumber : JSNum
deriving DecidableEq, Repr

/-- The parsed JSON of a `GET /picron/{id}` poll response, restricted to
the interface contract (an object carrying `status` or `status_code`, or
a null body); `none` on a field means absent-or-nullish. -/
structure PicronResp where
  status : Option StatusVal := none
  status_code : Option StatusVal := none
deriving DecidableEq, Repr

/-- `pdata.status ?? pdata.status_code ?? null` (line 163). -/
def nullishStatus (r : PicronResp) : Option StatusVal :=
  match r.status with
  | some sv => some sv
  | none => r.status_code

/-- Outcome of the status poll of one cycle: outer `none` = fetch failed
or response not ok (lines 159-174 skip the check); inner `none` = falsy
JSON body (`pdata && ...` leaves `status` non-string-null, so the
`status !== null` test fails). The timer is cleared iff a status value
is found and `Number(status) === 0` (lines 163-170). -/
def stopSignal : Option (Option PicronResp) → Bool
  | some (some r) =>
    match nullishStatus r with
    | some sv => decide (sv.toNumber = some 0)
    | none => false
  | _ => false

/-- The collection form (lines 11-19): seven numeric fields, all
initialized to `0`. -/
structure CollectionForm where
  taste_sweet : JSNum := some 0
  taste_salty : JSNum := some 0
  taste_bitter : JSNum := some 0
  taste_sour : JSNum := some 0
  taste_umami : JSNum := some 0
  quality : JSNum := some 0
  dilution : JSNum := some 0
deriving DecidableEq, Repr

/-- The seven `name` attributes of the collection inputs (lines 306-313),
the only values the change event's `name` can take. -/
inductive FormField where
  | taste_sweet | taste_salty | taste_bitter | taste_sour | taste_umami
  | quality | dilution
deriving DecidableEq, Repr

def getField (f : CollectionForm) : FormField → JSNum
  | .taste_sweet => f.taste_sweet
  | .taste_salty => f.taste_salty
  | .taste_bitter => f.taste_bitter
  | .taste_sour => f.taste_sour
  | .taste_umami => f.taste_umami
  | .quality => f.quality
  | .dilution => f.dilution

/-- `handleCollectionChange` (lines 89-92):
`setCollectionForm((s) => ({ ...s, [name]: Number(value) }))`.
`v` is the result of the `Number(value)` coercion of the event's value
string (`none` when the string is not numeric, i.e. `NaN`). -/
def handleCollectionChange (f : CollectionForm) (name : FormField) (v : JSNum) :
    CollectionForm :=
  match name with
  | .taste_sweet => { f with taste_sweet := v }
  | .taste_salty => { f with taste_salty := v }
  | .taste_bitter => { f with taste_bitter := v }
  | .taste_sour => { f with taste_sour := v }
  | .taste_umami => { f with taste_umami := v }
  | .quality => { f with quality := v }
  | .dilution => { f with dilution := v }

/-- `JSON.stringify` of a numeric field value: `NaN` serializes as
`null`. -/
def serializeJSNum : JSNum → String
  | none => "null"
  | some n => toString n

/-- `JSON.stringify({ ...collectionForm, status: s, factory })`, the body
of the `POST /picron/{id}` requests (lines 105-115 and 245-259);
insertion order of the literal is preserved. -/
def payloadJson (f : CollectionForm) (statusField : Nat) (factory : String) :
    String :=
  "\x7b\"taste_sweet\":" ++ serializeJSNum f.taste_sweet ++
  ",\"taste_salty\":" ++ serializeJSNum f.taste_salty ++
  ",\"taste_bitter\":" ++ serializeJSNum f.taste_bitter ++
  ",\"taste_sour\":" ++ serializeJSNum f.taste_sour ++
  ",\"taste_umami\":" ++ serializeJSNum f.taste_umami ++
  ",\"quality\":" ++ serializeJSNum f.quality ++
  ",\"dilution\":" ++ serializeJSNum f.dilution ++
  ",\"status\":" ++ toString statusField ++
  ",\"factory\":\"" ++ factory ++ "\"\x7d"

/-- The component state of `AnalysisPage` (lines 5-30). `pollingActive`
models `pollingRef.current !== null` (an interval is registered);
`csvFile` models whether a `File` is selected — the file's content is
never read by the orchestrator logic. -/
structure AnalysisState where
  factoryName : String := ""
  medicineName : String := ""
  factoryMedicineId : String := ""
  scriptText : String := ""
  isFetchingScript : Bool := false
  collectionForm : CollectionForm := {}
  isSubmittingCollection : Bool := false
  collectionStartTs : Option Int := none
  collectedEntries : List RawEntry := []
  pollingActive : Bool := false
  csvFile : Bool := false
  isTraining : Bool := false
  trainMessage : String := ""
  isRequestingPrediction : Bool := false
  predictionStartTs : Option Int := none
  predictions : List RawEntry := []
  predictionMessage : String := ""
deriving DecidableEq, Repr

def initState : AnalysisState := {}

/-- The derived-identity effect (lines 46-50): whenever `factoryName` or
`medicineName` changes, if both are non-empty set
`factoryMedicineId = factoryName + "_" + medicineName`. -/
def idEffect (s : AnalysisState) : AnalysisState :=
  if s.factoryName ≠ "" ∧ s.medicineName ≠ "" then
    { s with factoryMedicineId := s.factoryName ++ "_" ++ s.medicineName }
  else s

/-- The mount effect (lines 34-44): read the two names from storage
(already defaulted to `""`), store them, and if both are non-empty set
the id; the dependency effect of lines 46-50 then runs on the updated
fields. -/
def mount (f m : String) (s : AnalysisState) : AnalysisState :=
  let s1 := { s with factoryName := f, medicineName := m }
  let s2 :=
    if f ≠ "" ∧ m ≠ "" then { s1 with factoryMedicineId := f ++ "_" ++ m }
    else s1
  idEffect s2

def BASE_URL : String := "https://photontroppers.onrender.com"

/-- `TRAIN_URL_TEMPLATE` (line 33): constructed but never the URL that is
fetched. -/
def TRAIN_URL_TEMPLATE : String := BASE_URL ++ "/train/train/"

inductive HttpMethod where
  | get | post
deriving DecidableEq, Repr

inductive Endpoint where
  | shell | picron | getdata | train | predict
deriving DecidableEq, Repr

/-- An HTTP request issued by the orchestrator, identified by method,
endpoint and path id, with an optional JSON body. -/
structure Request where
  method : HttpMethod
  endpoint : Endpoint
  id : String
  body : Option String := none
deriving DecidableEq, Repr

/-- The URL string a `Request` denotes. -/
def Request.url (r : Request) : String :=
  BASE_URL ++
    (match r.endpoint with
      | .shell => "/shell/"
      | .picron => "/picron/"
      | .getdata => "/getdata/"
      | .train => "/train/"
      | .predict => "/predict/") ++ r.id

/-- An HTTP response as the handlers observe it: `ok` (2xx), the numeric
status, and the text body (already defaulted to `""` when
`res.text()` rejects, per the `.catch(() => "")` sites). -/
structure HttpResponse where
  ok : Bool
  status : Nat
  body : String
deriving DecidableEq, Repr

/-- Outcome of a `fetch`: `.error m` is a transport exception whose
rendered message (`err.message || err`) is `m`; `.ok r` is a settled
response. -/
abbrev FetchOutcome := Except String HttpResponse

/-- The alert of lines 54, 96 and 235. -/
def homeAlert : String := "Please set factory and medicine name on Home page first."

/-- Result of invoking a handler: the new component state plus the
observable effects (requests issued, alerts shown). -/
structure OpResult where
  state : AnalysisState
  requests : List Request := []
  alerts : List String := []
deriving DecidableEq, Repr

/-- `fetchShellScript` (lines 52-73). -/
def fetchShellScript (s : AnalysisState) (resp : FetchOutcome) : OpResult :=
  if s.factoryMedicineId = "" then
    { state := s, alerts := [homeAlert] }
  else
    let s1 := { s with isFetchingScript := true, scriptText := "" }
    let req : List Request := [⟨.get, .shell, s.factoryMedicineId, none⟩]
    match resp with
    | .error m =>
      { state := { s1 with
          scriptText := "# Error fetching script: " ++ m,
          isFetchingScript := false },
        requests := req }
    | .ok r =>
      if r.ok then
        { state := { s1 with
            scriptText := if r.body = "" then "# (empty script returned)" else r.body,
            isFetchingScript := false },
          requests := req }
      else
        { state := { s1 with
            scriptText := "# Error fetching script: Failed to fetch script (" ++
              toString r.status ++ "): " ++ r.body,
            isFetchingScript := false },
          requests := req }

/-- `submitCollection` (lines 94-129). The entry reset and the start
timestamp are written before the request is sent; `pollForDataAndStatus`
is invoked only on an ok response. `setCollectionForm((s) => ({ ...s }))`
(line 103) is the identity. -/
def submitCollection (s : AnalysisState) (now : Int) (resp : FetchOutcome) :
    OpResult :=
  if s.factoryMedicineId = "" then
    { state := s, alerts := [homeAlert] }
  else
    let s1 := { s with
      isSubmittingCollection := true,
      collectedEntries := [],
      collectionStartTs := some now }
    let req : List Request :=
      [⟨.post, .picron, s.factoryMedicineId,
        some (payloadJson s.collectionForm 1 s.factoryName)⟩]
    match resp with
    | .error _ =>
      { state := { s1 with isSubmittingCollection := false },
        requests := req,
        alerts := ["Error submitting data collection. See console for details."] }
    | .ok r =>
      if r.ok then
        { state := { s1 with isSubmittingCollection := false, pollingActive := true },
          requests := req }
      else
        { state := { s1 with isSubmittingCollection := false },
          requests := req,
          alerts := ["Error submitting data collection. See console for details."] }

/-- The two fetch outcomes one polling cycle works from: `getdata` is
`some` when `GET /getdata/{id}` was ok and its JSON parsed (lines
139-154; a failed fetch, non-ok response or parse exception skips the
append), `picron` is `some` when `GET /picron/{id}` was ok and its JSON
parsed (lines 159-174), the inner `none` being a null body. -/
structure CycleInput where
  getdata : Option JsonRecords := none
  picron : Option (Option PicronResp) := none
deriving DecidableEq, Repr

/-- `singleIteration` (lines 137-175): append the filtered `getdata`
records, then clear the interval iff the status poll carries a status
numerically equal to `0`. -/
def singleIteration (s : AnalysisState) (inp : CycleInput) : AnalysisState :=
  let s1 :=
    match inp.getdata with
    | none => s
    | some gd =>
      let filtered := (recordsToList gd).filter (keepEntry s.collectionStartTs)
      if filtered.length ≠ 0 then
        { s with collectedEntries := s.collectedEntries ++ filtered }
      else s
  if stopSignal inp.picron then { s1 with pollingActive := false } else s1

/-- `startModelTraining` (lines 196-231). The guard is
`!factoryName && !factoryMedicineId`; the URL actually fetched is the
literal `/train/{factoryMedicineId}`, not the `TRAIN_URL_TEMPLATE`
variant (lines 210-218). -/
def startModelTraining (s : AnalysisState) (resp : FetchOutcome) : OpResult :=
  if s.factoryName = "" ∧ s.factoryMedicineId = "" then
    { state := s, alerts := ["Factory/medicine not set. Please set them on Home page."] }
  else if s.csvFile = false then
    { state := s, alerts := ["Please upload a CSV file first."] }
  else
    let s1 := { s with isTraining := true, trainMessage := "" }
    let req : List Request := [⟨.post, .train, s.factoryMedicineId, none⟩]
    match resp with
    | .error m =>
      { state := { s1 with
          trainMessage := "Error starting training: " ++ m,
          isTraining := false },
        requests := req }
    | .ok r =>
      if r.ok then
        { state := { s1 with
            trainMessage := "Model training started successfully.",
            isTraining := false },
          requests := req }
      else
        { state := { s1 with
            trainMessage := "Error starting training: Training request failed: " ++
              toString r.status ++ " " ++ r.body,
            isTraining := false },
          requests := req }

/-- Outcome of the delayed `GET /predict/{id}` (lines 268-293):
transport/parse exception with rendered message, non-ok response, or ok
with parsed records. -/
inductive FetchJsonOutcome where
  | transportErr (msg : String)
  | httpErr (status : Nat) (body : String)
  | ok (records : JsonRecords)
deriving DecidableEq, Repr

/-- Result of `requestPredictionMode`: state, requests, alerts, and the
delays (ms) of the one-shot timers it schedules. -/
structure PredictResult where
  state : AnalysisState
  requests : List Request := []
  alerts : List String := []
  scheduledDelays : List Int := []
deriving DecidableEq, Repr

/-- `requestPredictionMode` (lines 233-301). On a successful POST a
single `setTimeout` of `15 * 1000` ms performs the one delayed
`GET /predict/{id}`; its records are filtered with the locally captured
`startTs` by code identical to the collection filter. -/
def requestPredictionMode (s : AnalysisState) (now : Int)
    (post : FetchOutcome) (delayed : FetchJsonOutcome) : PredictResult :=
  if s.factoryMedicineId = "" then
    { state := s, alerts := [homeAlert] }
  else
    let s1 := { s with
      isRequestingPrediction := true,
      predictions := [],
      predictionMessage := "",
      predictionStartTs := some now }
    let postReq : Request :=
      ⟨.post, .picron, s.factoryMedicineId, some (payloadJson {} 2 s.factoryName)⟩
    match post with
    | .error m =>
      { state := { s1 with
          predictionMessage := "Error requesting prediction mode: " ++ m,
          isRequestingPrediction := false },
        requests := [postReq] }
    | .ok r =>
      if ¬ r.ok then
        { state := { s1 with
            predictionMessage :=
              "Error requesting prediction mode: Failed to request prediction mode: " ++
                toString r.status ++ " " ++ r.body,
            isRequestingPrediction := false },
          requests := [postReq] }
      else
        let getReq : Request := ⟨.get, .predict, s.factoryMedicineId, none⟩
        match delayed with
        | .transportErr m =>
          { state := { s1 with
              predictionMessage := "Error fetching prediction: " ++ m,
              isRequestingPrediction := false },
            requests := [postReq, getReq],
            scheduledDelays := [15 * 1000] }
        | .httpErr st b =>
          { state := { s1 with
              predictionMessage :=
                "Error fetching prediction: Failed to fetch prediction: " ++
                  toString st ++ " " ++ b,
              isRequestingPrediction := false },
            requests := [postReq, getReq],
            scheduledDelays := [15 * 1000] }
        | .ok recs =>
          { state := { s1 with
              predictions := (recordsToList recs).filter (keepEntry (some now)),
              predictionMessage := "Prediction fetched.",
              isRequestingPrediction := false },
            requests := [postReq, getReq],
            scheduledDelays := [15 * 1000] }

/-- The user/timer events the mounted component can process, each
carrying the externally supplied network outcomes its handler consumes.
`pollCycle` is one execution of `singleIteration` (it only runs while an
interval is registered); `teardown` is the unmount cleanup of lines
182-189. -/
inductive Event where
  | fetchScript (resp : FetchOutcome)
  | collectionChange (name : FormField) (v : JSNum)
  | submitColl (now : Int) (resp : FetchOutcome)
  | pollCycle (inp : CycleInput)
  | csvSelect (b : Bool)
  | train (resp : FetchOutcome)
  | predictReq (now : Int) (post : FetchOutcome) (delayed : FetchJsonOutcome)
  | teardown
deriving Repr

def Event.isSubmit : Event → Bool
  | .submitColl _ _ => true
  | _ => false

/-- State transition of one event. -/
def step (s : AnalysisState) : Event → AnalysisState
  | .fetchScript resp => (fetchShellScript s resp).state
  | .collectionChange name v =>
    { s with collectionForm := handleCollectionChange s.collectionForm name v }
  | .submitColl now resp => (submitCollection s now resp).state
  | .pollCycle inp => if s.pollingActive then singleIteration s inp else s
  | .csvSelect b => { s with csvFile := b }
  | .train resp => (startModelTraining s resp).state
  | .predictReq now post delayed => (requestPredictionMode s now post delayed).state
  | .teardown => { s with pollingActive := false }

/-- The HTTP requests one event issues. A polling cycle attempts its two
GETs exactly when an interval is registered. -/
def stepCalls (s : AnalysisState) : Event → List Request
  | .fetchScript resp => (fetchShellScript s resp).requests
  | .collectionChange _ _ => []
  | .submitColl now resp => (submitCollection s now resp).requests
  | .pollCycle _ =>
    if s.pollingActive then
      [⟨.get, .getdata, s.factoryMedicineId, none⟩,
       ⟨.get, .picron, s.factoryMedicineId, none⟩]
    else []
  | .csvSelect _ => []
  | .train resp => (startModelTraining s resp).requests
  | .predictReq now post delayed => (requestPredictionMode s now post delayed).requests
  | .teardown => []

def run (s : AnalysisState) : List Event → AnalysisState
  | [] => s
  | ev :: evs => run (step s ev) evs

/-- All requests issued along an event trace. -/
def runCalls (s : AnalysisState) : List Event → List Request
  | [] => []
  | ev :: evs => stepCalls s ev ++ runCalls (step s ev) evs

/-- A request is a collection-polling call iff it is one of the two GETs
a poll cycle performs. -/
def isPollingCall (r : Request) : Bool :=
  r.method = .get ∧ (r.endpoint = .getdata ∨ r.endpoint = .picron)

/-- The interval-handle bookkeeping, modelled at the level of timer ids:
`live` are the currently registered intervals, `pollingRef` is
`pollingRef.current`. -/
structure TimerEnv where
  nextId : Nat := 0
  live : List Nat := []
  pollingRef : Option Nat := none
deriving DecidableEq, Repr

/-- `if (pollingRef.current) { clearInterval(...); pollingRef.current = null }`
(lines 132-135, 165-168 and 184-187). -/
def clearPollingRef (env : TimerEnv) : TimerEnv :=
  match env.pollingRef with
  | none => env
  | some t => { env with live := env.live.erase t, pollingRef := none }

/-- `pollingRef.current = setInterval(singleIteration, 15 * 1000)`
(line 179): register a fresh interval and store its handle. -/
def setPollInterval (env : TimerEnv) : TimerEnv :=
  { env with
    nextId := env.nextId + 1,
    live := env.live ++ [env.nextId],
    pollingRef := some env.nextId }

/-- `pollForDataAndStatus` (lines 131-180), timer view: clear any
previously registered interval, then register the new one. -/
def pollForDataAndStatus (env : TimerEnv) : TimerEnv :=
  setPollInterval (clearPollingRef env)

/-- Timer-relevant occurrences: a new submission restarting polling, a
cycle observing status `0`, unmount, and a cycle without stop signal
(which never touches the timer). -/
inductive TimerEvent where
  | restartPolling | statusZero | unmount | cycleNoStop
deriving DecidableEq, Repr

def timerStep (env : TimerEnv) : TimerEvent → TimerEnv
  | .restartPolling => pollForDataAndStatus env
  | .statusZero => clearPollingRef env
  | .unmount => clearPollingRef env
  | .cycleNoStop => env

def timerRun (env : TimerEnv) : List TimerEvent → TimerEnv
  | [] => env
  | ev :: evs => timerRun (timerStep env ev) evs

/-- Well-formedness of the timer bookkeeping: the ref points at the one
live interval (with an already-allocated id), and with no ref nothing is
live. -/
def timerInv (env : TimerEnv) : Prop :=
  (∀ t, env.pollingRef = some t → env.live = [t] ∧ t < env.nextId) ∧
  (env.pollingRef = none → env.live = [])

/-! ### Helper lemmas -/

lemma step_preserves_names (s : AnalysisState) (ev : Event) :
    (step s ev).factoryMedicineId = s.factoryMedicineId ∧
    (step s ev).factoryName = s.factoryName ∧
    (step s ev).medicineName = s.medicineName := by
  cases ev <;>
    simp only [step, fetchShellScript, submitCollection, singleIteration,
      startModelTraining, requestPredictionMode] <;>
    (repeat' split) <;> simp_all

lemma run_preserves_names (s : AnalysisState) (evs : List Event) :
    (run s evs).factoryMedicineId = s.factoryMedicineId ∧
    (run s evs).factoryName = s.factoryName ∧
    (run s evs).medicineName = s.medicineName := by
  induction evs generalizing s with
  | nil => simp [run]
  | cons ev evs ih =>
    have h1 := step_preserves_names s ev
    have h2 := ih (step s ev)
    simp only [run]
    exact ⟨h2.1.trans h1.1, h2.2.1.trans h1.2.1, h2.2.2.trans h1.2.2⟩

lemma mount_id_of_nonempty (f m : String) (hf : f ≠ "") (hm : m ≠ "") :
    (mount f m initState).factoryMedicineId = f ++ "_" ++ m := by
  simp [mount, idEffect, initState, hf, hm]

lemma mount_id_of_empty (f m : String) (h : f = "" ∨ m = "") :
    (mount f m initState).factoryMedicineId = "" := by
  rcases h with h | h <;> simp [mount, idEffect, initState, h]

lemma mount_names (f m : String) :
    (mount f m initState).factoryName = f ∧ (mount f m initState).medicineName = m := by
  by_cases hf : f = "" <;> by_cases hm : m = "" <;>
    simp [mount, idEffect, initState, hf, hm]

/-- A state of the mounted component: the mount effect ran on the two
stored names, then any sequence of events was processed. -/
def reachState (f m : String) (evs : List Event) : AnalysisState :=
  run (mount f m initState) evs

lemma reachState_names (f m : String) (evs : List Event) :
    (reachState f m evs).factoryName = f ∧ (reachState f m evs).medicineName = m := by
  have hp := run_preserves_names (mount f m initState) evs
  have hn := mount_names f m
  exact ⟨hp.2.1.trans hn.1, hp.2.2.trans hn.2⟩

lemma reachState_id_empty (f m : String) (h : f = "" ∨ m = "") (evs : List Event) :
    (reachState f m evs).factoryMedicineId = "" := by
  have hp := run_preserves_names (mount f m initState) evs
  exact hp.1.trans (mount_id_of_empty f m h)

/-! ### Claim theorems -/

/-- C2: in every reachable state of the mounted component,
`factoryMedicineId` equals `factoryName ++ "_" ++ medicineName` when both
source fields are non-empty and is empty whenever either source field is
empty; moreover the dependency effect recomputes the derived id from the
current source fields whenever they are both non-empty. -/
theorem C2_factoryMedicineId_invariant :
    (∀ f m evs,
      ((f ≠ "" ∧ m ≠ "") →
        (reachState f m evs).factoryMedicineId = f ++ "_" ++ m) ∧
      ((f = "" ∨ m = "") → (reachState f m evs).factoryMedicineId = "") ∧
      (reachState f m evs).factoryName = f ∧
      (reachState f m evs).medicineName = m) ∧
    (∀ s, s.factoryName ≠ "" → s.medicineName ≠ "" →
      (idEffect s).factoryMedicineId = s.factoryName ++ "_" ++ s.medicineName) := by
  constructor
  · intro f m evs
    have hp := run_preserves_names (mount f m initState) evs
    have hn := reachState_names f m evs
    refine ⟨?_, fun h => reachState_id_empty f m h evs, hn.1, hn.2⟩
    rintro ⟨hf, hm⟩
    exact hp.1.trans (mount_id_of_nonempty f m hf hm)
  · intro s hf hm
    simp [idEffect, hf, hm]

/-- C2 witness: the scenario `factoryName = "ACME"`,
`medicineName = "Tonic1"` yields `factoryMedicineId = "ACME_Tonic1"`. -/
theorem C2_witness :
    (reachState "ACME" "Tonic1" []).factoryMedicineId = "ACME_Tonic1" :=
  (C2_factoryMedicineId_invariant.1 "ACME" "Tonic1" []).1 (by decide)

/-- C1 counterexample: the state with `factoryName = "ACME"`,
`medicineName = ""` (hence empty `factoryMedicineId`) and a CSV file
selected is reachable, yet `startModelTraining` passes its
`!factoryName && !factoryMedicineId` guard and issues the training POST
instead of rejecting. -/
theorem C1_counterexample :
    (reachState "ACME" "" [.csvSelect true]).medicineName = "" ∧
    (reachState "ACME" "" [.csvSelect true]).factoryMedicineId = "" ∧
    (startModelTraining (reachState "ACME" "" [.csvSelect true])
        (.ok ⟨true, 200, "started"⟩)).requests ≠ [] ∧
    (startModelTraining (reachState "ACME" "" [.csvSelect true])
        (.ok ⟨true, 200, "started"⟩)).alerts = [] := by
  refine ⟨?_, ?_, ?_, ?_⟩ <;> decide

/-- C1 (amended): in every reachable state in which `factoryName` or
`medicineName` is empty, `fetchShellScript`, `submitCollection` and
`requestPredictionMode` are rejected with an alert, an unchanged state
and no network call; `startModelTraining` is likewise rejected when the
factory name is also empty or when no CSV file is selected, but with a
non-empty factory name and a CSV file selected it issues the POST. -/
theorem C1_amended (f m : String) (h : f = "" ∨ m = "") (evs : List Event)
    (resp resp2 resp3 post : FetchOutcome) (now now2 : Int)
    (delayed : FetchJsonOutcome) :
    ((fetchShellScript (reachState f m evs) resp).requests = [] ∧
      (fetchShellScript (reachState f m evs) resp).alerts = [homeAlert] ∧
      (fetchShellScript (reachState f m evs) resp).state = reachState f m evs) ∧
    ((submitCollection (reachState f m evs) now resp2).requests = [] ∧
      (submitCollection (reachState f m evs) now resp2).alerts = [homeAlert] ∧
      (submitCollection (reachState f m evs) now resp2).state = reachState f m evs) ∧
    ((requestPredictionMode (reachState f m evs) now2 post delayed).requests = [] ∧
      (requestPredictionMode (reachState f m evs) now2 post delayed).alerts = [homeAlert] ∧
      (requestPredictionMode (reachState f m evs) now2 post delayed).state =
        reachState f m evs) ∧
    (f = "" → (startModelTraining (reachState f m evs) resp3).requests = []) ∧
    ((reachState f m evs).csvFile = false →
      (startModelTraining (reachState f m evs) resp3).requests = []) := by
  have hid := reachState_id_empty f m h evs
  refine ⟨?_, ?_, ?_, ?_, ?_⟩
  · simp [fetchShellScript, hid]
  · simp [submitCollection, hid]
  · simp [requestPredictionMode, hid]
  · intro hf
    subst hf
    have hfn := (reachState_names "" m evs).1
    simp [startModelTraining, hid, hfn]
  · intro hcsv
    by_cases hf : (reachState f m evs).factoryName = "" <;>
      simp [startModelTraining, hid, hf, hcsv]

/-- C1 (amended) witness. -/
theorem C1_amended_witness :
    (fetchShellScript (reachState "" "Tonic1" []) (.ok ⟨true, 200, "x"⟩)).requests = [] :=
  (C1_amended "" "Tonic1" (Or.inl rfl) [] (.ok ⟨true, 200, "x"⟩)
    (.ok ⟨true, 200, "x"⟩) (.ok ⟨true, 200, "x"⟩) (.ok ⟨true, 200, "x"⟩)
    0 0 (.ok (.array []))).1.1

lemma singleIteration_getdata (s : AnalysisState) (inp : CycleInput)
    (gd : JsonRecords) (h : inp.getdata = some gd) :
    (singleIteration s inp).collectedEntries =
      s.collectedEntries ++ (recordsToList gd).filter (keepEntry s.collectionStartTs) := by
  unfold singleIteration
  rw [h]
  dsimp only
  split_ifs <;> simp_all [List.length_eq_zero]

lemma singleIteration_startTs (s : AnalysisState) (inp : CycleInput) :
    (singleIteration s inp).collectionStartTs = s.collectionStartTs := by
  unfold singleIteration
  cases h : inp.getdata <;> dsimp only <;> split_ifs <;> rfl

lemma singleIteration_active (s : AnalysisState) (inp : CycleInput) :
    (singleIteration s inp).pollingActive =
      (if stopSignal inp.picron then false else s.pollingActive) := by
  unfold singleIteration
  cases h : inp.getdata <;> dsimp only <;> split_ifs <;> rfl

/-- A record whose sole timestamp alias is a non-empty string that is
neither a parseable date nor numeric: `Date.parse` and `Number` both
give `NaN`. -/
def garbageEntry : RawEntry :=
  { timestamp := some { truthy := true, dateParse := none, toNumber := none } }

/-- C3 counterexample: a record carrying an unparseable timestamp is
claimed to be retained, but the filter excludes it — `parsed` coalesces
to `null`, so `parsed && parsed >= startTs` is falsy: with
`startTimestamp = 1000` the record is dropped from collection-entry
accumulation (and the prediction filter is the same code). -/
theorem C3_counterexample :
    keepEntry (some 1000) garbageEntry = false ∧
    (singleIteration
        { initState with pollingActive := true, collectionStartTs := some 1000 }
        { getdata := some (.array [garbageEntry]), picron := none }).collectedEntries
      = [] := by
  refine ⟨?_, ?_⟩ <;> decide

/-- C3 (amended): for every record processed during collection-entry
accumulation or prediction fetching, against a truthy session start
timestamp: a record with no truthy timestamp alias is retained; a record
whose coalesced timestamp fails to parse to a truthy number (both
`Date.parse` and `Number` give `NaN` or `0`) is excluded; a record whose
timestamp parses to a truthy number `p` is retained iff `p` is not
strictly less than the start timestamp. Both operations filter with this
same predicate. -/
theorem C3_amended (st : Int) (hst : st ≠ 0) (e : RawEntry) :
    (tsOf e = none → keepEntry (some st) e = true) ∧
    (∀ v, tsOf e = some v → parsedOf v = none → keepEntry (some st) e = false) ∧
    (∀ v p, tsOf e = some v → parsedOf v = some p →
      (keepEntry (some st) e = true ↔ st ≤ p)) ∧
    (∀ s inp gd, inp.getdata = some gd →
      (singleIteration s inp).collectedEntries =
        s.collectedEntries ++ (recordsToList gd).filter (keepEntry s.collectionStartTs)) ∧
    (∀ s now r recs, s.factoryMedicineId ≠ "" → r.ok = true →
      (requestPredictionMode s now (.ok r) (.ok recs)).state.predictions =
        (recordsToList recs).filter (keepEntry (some now))) := by
  refine ⟨?_, ?_, ?_, fun s inp gd h => singleIteration_getdata s inp gd h, ?_⟩
  · intro h
    simp [keepEntry, hst, h]
  · intro v hv hp
    simp [keepEntry, hst, hv, hp]
  · intro v p hv hp
    simp [keepEntry, hst, hv, hp]
  · intro s now r recs hid hok
    simp [requestPredictionMode, hid, hok]

/-- C3 (amended) witness: a record with no timestamp alias is retained
against start timestamp `1000`. -/
theorem C3_amended_witness :
    tsOf {} = none ∧ keepEntry (some 1000) {} = true :=
  ⟨by decide, (C3_amended 1000 (by decide) {}).1 (by decide)⟩

lemma clearPollingRef_spec (env : TimerEnv) (h : timerInv env) :
    (clearPollingRef env).live = [] ∧
    (clearPollingRef env).pollingRef = none ∧
    (clearPollingRef env).nextId = env.nextId := by
  unfold clearPollingRef
  cases href : env.pollingRef with
  | none => exact ⟨h.2 href, href, rfl⟩
  | some t =>
    have := (h.1 t href).1
    simp [this]

lemma pollForDataAndStatus_spec (env : TimerEnv) (h : timerInv env) :
    (pollForDataAndStatus env).live = [env.nextId] ∧
    (pollForDataAndStatus env).pollingRef = some env.nextId ∧
    (pollForDataAndStatus env).nextId = env.nextId + 1 := by
  obtain ⟨h1, h2, h3⟩ := clearPollingRef_spec env h
  unfold pollForDataAndStatus setPollInterval
  simp [h1, h2, h3]

lemma timerInv_clear (env : TimerEnv) (h : timerInv env) :
    timerInv (clearPollingRef env) := by
  obtain ⟨h1, h2, _⟩ := clearPollingRef_spec env h
  unfold timerInv
  constructor
  · intro t ht
    rw [h2] at ht
    cases ht
  · intro _
    exact h1

lemma timerInv_step (env : TimerEnv) (ev : TimerEvent) (h : timerInv env) :
    timerInv (timerStep env ev) := by
  cases ev with
  | restartPolling =>
    obtain ⟨h1, h2, h3⟩ := pollForDataAndStatus_spec env h
    unfold timerInv
    constructor
    · intro t ht
      simp only [timerStep] at ht ⊢
      rw [h2] at ht
      have hte := Option.some.inj ht
      subst hte
      rw [h1, h3]
      exact ⟨rfl, Nat.lt_succ_self _⟩
    · intro hn
      simp only [timerStep] at hn
      rw [h2] at hn
      cases hn
  | statusZero => exact timerInv_clear env h
  | unmount => exact timerInv_clear env h
  | cycleNoStop => exact h

lemma timerInv_run (env : TimerEnv) (evs : List TimerEvent) (h : timerInv env) :
    timerInv (timerRun env evs) := by
  induction evs generalizing env with
  | nil => exact h
  | cons ev evs ih => exact ih (timerStep env ev) (timerInv_step env ev h)

lemma timerInv_init : timerInv {} := by
  unfold timerInv
  constructor
  · intro t ht
    cases ht
  · intro _
    rfl

lemma timerInv_live_len (env : TimerEnv) (h : timerInv env) :
    env.live.length ≤ 1 := by
  cases href : env.pollingRef with
  | none => simp [h.2 href]
  | some t => simp [(h.1 t href).1]

lemma stepCalls_no_polling (s : AnalysisState) (ev : Event)
    (h : s.pollingActive = false) (hs : ev.isSubmit = false) :
    ∀ r ∈ stepCalls s ev, isPollingCall r = false := by
  cases ev <;>
    simp only [stepCalls, Event.isSubmit, fetchShellScript, submitCollection,
      startModelTraining, requestPredictionMode] at hs ⊢ <;>
    (repeat' split) <;> simp_all [isPollingCall]

lemma step_keeps_inactive (s : AnalysisState) (ev : Event)
    (h : s.pollingActive = false) (hs : ev.isSubmit = false) :
    (step s ev).pollingActive = false := by
  cases ev <;>
    simp only [step, Event.isSubmit, fetchShellScript, submitCollection,
      startModelTraining, requestPredictionMode] at hs ⊢ <;>
    (repeat' split) <;> simp_all

/-- C4: a poll cycle from an active-polling state clears the interval iff
the status poll carries a status (or `status_code`) numerically equal to
`0`; view teardown clears it unconditionally; once the interval is gone,
as long as no new submission occurs, no event ever issues a `/getdata`
or `/picron` polling GET again; and at the timer-handle level a status-0
cycle, an unmount and a restart each remove the previously registered
interval, while a cycle without stop signal never touches the timers. -/
theorem C4_polling_stops_iff_status_zero :
    (∀ s inp, s.pollingActive = true →
      ((step s (.pollCycle inp)).pollingActive = false ↔
        stopSignal inp.picron = true)) ∧
    (∀ s, (step s .teardown).pollingActive = false) ∧
    (∀ s evs, s.pollingActive = false → (∀ ev ∈ evs, ev.isSubmit = false) →
      ∀ r ∈ runCalls s evs, isPollingCall r = false) ∧
    (∀ env t, timerInv env → env.pollingRef = some t →
      t ∉ (timerStep env .statusZero).live ∧
      t ∉ (timerStep env .unmount).live ∧
      t ∉ (timerStep env .restartPolling).live ∧
      timerStep env .cycleNoStop = env) := by
  refine ⟨?_, ?_, ?_, ?_⟩
  · intro s inp h
    simp only [step, h, if_true]
    rw [singleIteration_active]
    by_cases hstop : stopSignal inp.picron <;> simp [hstop, h]
  · intro s; simp [step]
  · intro s evs
    induction evs generalizing s with
    | nil => intro _ _ r hr; simp [runCalls] at hr
    | cons ev evs ih =>
      intro h hsub r hr
      simp only [runCalls, List.mem_append] at hr
      rcases hr with hr | hr
      · exact stepCalls_no_polling s ev h (hsub ev (by simp)) r hr
      · exact ih (step s ev)
          (step_keeps_inactive s ev h (hsub ev (by simp)))
          (fun e he => hsub e (by simp [he])) r hr
  · intro env t h href
    have hc := clearPollingRef_spec env h
    have hp := pollForDataAndStatus_spec env h
    have hlt : t < env.nextId := (h.1 t href).2
    refine ⟨?_, ?_, ?_, rfl⟩
    · simp [timerStep, hc.1]
    · simp [timerStep, hc.1]
    · simp only [timerStep, hp.1]
      simp
      omega

/-- C4 witness: from an active-polling reachable state, a cycle whose
status poll returns `status = 0` clears the interval. -/
theorem C4_witness :
    (step { initState with pollingActive := true }
        (.pollCycle { picron := some (some { status := some ⟨some 0⟩ }) })).pollingActive
      = false :=
  (C4_polling_stops_iff_status_zero.1 { initState with pollingActive := true }
    { picron := some (some { status := some ⟨some 0⟩ }) } rfl).mpr (by decide)

/-- C5: collection-entry accumulation is append-only — two consecutive
poll cycles from an active-polling state (the first not carrying the stop
signal) append the two filtered record batches after the existing entry
sequence in arrival order; starting from an empty sequence the final
length is the sum of the two filtered counts. -/
theorem C5_append_only (s : AnalysisState) (inp1 inp2 : CycleInput)
    (gd1 gd2 : JsonRecords)
    (hact : s.pollingActive = true)
    (hstop : stopSignal inp1.picron = false)
    (h1 : inp1.getdata = some gd1) (h2 : inp2.getdata = some gd2) :
    (run s [.pollCycle inp1, .pollCycle inp2]).collectedEntries =
      s.collectedEntries ++
        (recordsToList gd1).filter (keepEntry s.collectionStartTs) ++
        (recordsToList gd2).filter (keepEntry s.collectionStartTs) ∧
    (s.collectedEntries = [] →
      (run s [.pollCycle inp1, .pollCycle inp2]).collectedEntries.length =
        ((recordsToList gd1).filter (keepEntry s.collectionStartTs)).length +
          ((recordsToList gd2).filter (keepEntry s.collectionStartTs)).length) := by
  have e1 : step s (.pollCycle inp1) = singleIteration s inp1 := by
    simp [step, hact]
  have hact1 : (singleIteration s inp1).pollingActive = true := by
    rw [singleIteration_active, hstop]
    simpa using hact
  have e2 : step (singleIteration s inp1) (.pollCycle inp2) =
      singleIteration (singleIteration s inp1) inp2 := by
    simp [step, hact1]
  have hts : (singleIteration s inp1).collectionStartTs = s.collectionStartTs :=
    singleIteration_startTs s inp1
  have hent :
      (singleIteration (singleIteration s inp1) inp2).collectedEntries =
        s.collectedEntries ++
          (recordsToList gd1).filter (keepEntry s.collectionStartTs) ++
          (recordsToList gd2).filter (keepEntry s.collectionStartTs) := by
    rw [singleIteration_getdata _ inp2 gd2 h2, hts,
      singleIteration_getdata s inp1 gd1 h1]
  constructor
  · show (run _ _).collectedEntries = _
    simp only [run, e1, e2]
    exact hent
  · intro hempty
    show (run _ _).collectedEntries.length = _
    simp only [run, e1, e2]
    rw [hent, hempty]
    simp

/-- C5 witness. -/
theorem C5_witness :
    (run { initState with pollingActive := true, collectionStartTs := some 10 }
        [.pollCycle { getdata := some (.array [{}]) },
         .pollCycle { getdata := some (.single {}) }]).collectedEntries.length = 2 := by
  have h := (C5_append_only
    { initState with pollingActive := true, collectionStartTs := some 10 }
    { getdata := some (.array [{}]) } { getdata := some (.single {}) }
    (.array [{}]) (.single {}) rfl (by decide) rfl rfl).2 rfl
  rw [h]
  decide

/-- C9: at most one collection-poll interval is ever live — along every
timer-event trace from the initial environment the set of registered
intervals has size at most one, and `pollForDataAndStatus` always
removes the previously referenced interval before registering the fresh
one. -/
theorem C9_at_most_one_interval :
    (∀ evs, (timerRun {} evs).live.length ≤ 1) ∧
    (∀ env t, timerInv env → env.pollingRef = some t →
      t ∉ (pollForDataAndStatus env).live ∧
      (pollForDataAndStatus env).live.length = 1) := by
  constructor
  · intro evs
    exact timerInv_live_len _ (timerInv_run {} evs timerInv_init)
  · intro env t h href
    have hp := pollForDataAndStatus_spec env h
    have hlt : t < env.nextId := (h.1 t href).2
    constructor
    · simp only [hp.1]
      simp
      omega
    · simp [hp.1]

/-- C9 witness: after two restarts, exactly the second interval is live
and the first was removed. -/
theorem C9_witness :
    (timerRun {} [.restartPolling, .restartPolling]).live.length ≤ 1 ∧
    0 ∉ (pollForDataAndStatus (timerRun {} [.restartPolling])).live :=
  ⟨C9_at_most_one_interval.1 [.restartPolling, .restartPolling],
    (C9_at_most_one_interval.2 (timerRun {} [.restartPolling]) 0
      (timerInv_run {} [.restartPolling] timerInv_init) (by decide)).1⟩

/-- C6: after a successful predict-mode POST exactly one delayed action
is scheduled, fixed at `15 * 1000` ms, performing exactly one
`GET /predict/{id}`; on POST failure nothing is scheduled and no predict
GET occurs; and any failure at the POST or at the delayed GET sets an
error message and clears the in-flight prediction flag. -/
theorem C6_single_delayed_prediction_fetch (s : AnalysisState) (now : Int)
    (hid : s.factoryMedicineId ≠ "") :
    (∀ r delayed, r.ok = true →
      (requestPredictionMode s now (.ok r) delayed).scheduledDelays = [15 * 1000] ∧
      ((requestPredictionMode s now (.ok r) delayed).requests.filter
          (fun q => q.endpoint = Endpoint.predict)).length = 1) ∧
    (∀ m delayed,
      (requestPredictionMode s now (.error m) delayed).scheduledDelays = [] ∧
      ((requestPredictionMode s now (.error m) delayed).requests.filter
          (fun q => q.endpoint = Endpoint.predict)).length = 0 ∧
      (requestPredictionMode s now (.error m) delayed).state.isRequestingPrediction
        = false ∧
      (requestPredictionMode s now (.error m) delayed).state.predictionMessage =
        "Error requesting prediction mode: " ++ m) ∧
    (∀ r delayed, r.ok = false →
      (requestPredictionMode s now (.ok r) delayed).scheduledDelays = [] ∧
      (requestPredictionMode s now (.ok r) delayed).state.isRequestingPrediction
        = false ∧
      (requestPredictionMode s now (.ok r) delayed).state.predictionMessage =
        "Error requesting prediction mode: Failed to request prediction mode: " ++
          toString r.status ++ " " ++ r.body) ∧
    (∀ r m, r.ok = true →
      (requestPredictionMode s now (.ok r) (.transportErr m)).state.predictionMessage
        = "Error fetching prediction: " ++ m ∧
      (requestPredictionMode s now
          (.ok r) (.transportErr m)).state.isRequestingPrediction = false) ∧
    (∀ r st b, r.ok = true →
      (requestPredictionMode s now (.ok r) (.httpErr st b)).state.predictionMessage
        = "Error fetching prediction: Failed to fetch prediction: " ++
            toString st ++ " " ++ b ∧
      (requestPredictionMode s now
          (.ok r) (.httpErr st b)).state.isRequestingPrediction = false) := by
  refine ⟨?_, ?_, ?_, ?_, ?_⟩
  · intro r delayed hok
    cases delayed <;> simp [requestPredictionMode, hid, hok, List.filter]
  · intro m delayed
    simp [requestPredictionMode, hid]
  · intro r delayed hok
    simp [requestPredictionMode, hid, hok]
  · intro r m hok
    simp [requestPredictionMode, hid, hok]
  · intro r st b hok
    simp [requestPredictionMode, hid, hok]

/-- C6 witness. -/
theorem C6_witness :
    (requestPredictionMode { initState with factoryMedicineId := "A_B" } 7
        (.ok ⟨true, 200, ""⟩) (.ok (.single {}))).scheduledDelays = [15 * 1000] :=
  ((C6_single_delayed_prediction_fetch { initState with factoryMedicineId := "A_B" }
    7 (by decide)).1 ⟨true, 200, ""⟩ (.ok (.single {})) rfl).1

/-- C7: when the collection-submission POST fails (transport error or
non-2xx), an alert is surfaced, the submitting flag is cleared and
polling is not entered (the polling flag is left as it was); and on both
the success and failure paths the start timestamp was recorded and the
entry sequence reset to empty before the request was sent. -/
theorem C7_submit_failure_stays_idle (s : AnalysisState) (now : Int)
    (resp : FetchOutcome) (hid : s.factoryMedicineId ≠ "") :
    (submitCollection s now resp).state.collectionStartTs = some now ∧
    (submitCollection s now resp).state.collectedEntries = [] ∧
    (submitCollection s now resp).state.isSubmittingCollection = false ∧
    (submitCollection s now resp).requests =
      [⟨.post, .picron, s.factoryMedicineId,
        some (payloadJson s.collectionForm 1 s.factoryName)⟩] ∧
    (∀ m, resp = .error m →
      (submitCollection s now resp).alerts =
        ["Error submitting data collection. See console for details."] ∧
      (submitCollection s now resp).state.pollingActive = s.pollingActive) ∧
    (∀ r, resp = .ok r → r.ok = false →
      (submitCollection s now resp).alerts =
        ["Error submitting data collection. See console for details."] ∧
      (submitCollection s now resp).state.pollingActive = s.pollingActive) ∧
    (∀ r, resp = .ok r → r.ok = true →
      (submitCollection s now resp).alerts = [] ∧
      (submitCollection s now resp).state.pollingActive = true) := by
  rcases resp with m | r
  · refine ⟨?_, ?_, ?_, ?_, ?_, ?_, ?_⟩ <;>
      simp [submitCollection, hid]
  · by_cases hok : r.ok <;>
      refine ⟨?_, ?_, ?_, ?_, ?_, ?_, ?_⟩ <;>
      simp_all [submitCollection, hid]

/-- C7 witness. -/
theorem C7_witness :
    (submitCollection { initState with factoryMedicineId := "A_B" } 5
        (.ok ⟨false, 500, "boom"⟩)).state.collectedEntries = [] ∧
    (submitCollection { initState with factoryMedicineId := "A_B" } 5
        (.ok ⟨false, 500, "boom"⟩)).state.pollingActive = false :=
  have h := C7_submit_failure_stays_idle { initState with factoryMedicineId := "A_B" }
    5 (.ok ⟨false, 500, "boom"⟩) (by decide)
  ⟨h.2.1, ((h.2.2.2.2.2.1 ⟨false, 500, "boom"⟩ rfl rfl).2).trans rfl⟩

/-- C8: with the guard passed, a non-2xx training response sets a message
that embeds the status code and the response body (it decomposes around
both), a 2xx response sets the fixed success message, and the
training-in-progress flag is cleared on every exit path. -/
theorem C8_training_error_message (s : AnalysisState) (resp : FetchOutcome)
    (hguard : ¬(s.factoryName = "" ∧ s.factoryMedicineId = ""))
    (hcsv : s.csvFile = true) :
    (startModelTraining s resp).state.isTraining = false ∧
    (∀ r, resp = .ok r → r.ok = false →
      (startModelTraining s resp).state.trainMessage =
        "Error starting training: Training request failed: " ++
          toString r.status ++ " " ++ r.body ∧
      (∃ pre post,
        (startModelTraining s resp).state.trainMessage =
          pre ++ toString r.status ++ post) ∧
      (∃ pre post,
        (startModelTraining s resp).state.trainMessage = pre ++ r.body ++ post)) ∧
    (∀ r, resp = .ok r → r.ok = true →
      (startModelTraining s resp).state.trainMessage =
        "Model training started successfully.") ∧
    (∀ m, resp = .error m →
      (startModelTraining s resp).state.trainMessage =
        "Error starting training: " ++ m) := by
  have hmsg : ∀ r : HttpResponse,
      (startModelTraining s (.ok r)).state.trainMessage =
        (if r.ok then "Model training started successfully."
         else "Error starting training: Training request failed: " ++
           toString r.status ++ " " ++ r.body) := by
    intro r
    by_cases hok : r.ok <;> simp [startModelTraining, hguard, hcsv, hok]
  refine ⟨?_, ?_, ?_, ?_⟩
  · rcases resp with m | r
    · simp [startModelTraining, hguard, hcsv]
    · by_cases hok : r.ok <;> simp [startModelTraining, hguard, hcsv, hok]
  · rintro r rfl hok
    have h := hmsg r
    rw [hok] at h
    simp only [if_false, Bool.false_eq_true] at h
    refine ⟨h, ⟨"Error starting training: Training request failed: ",
      " " ++ r.body, ?_⟩, ⟨"Error starting training: Training request failed: " ++
        toString r.status ++ " ", "", ?_⟩⟩
    · rw [h, String.append_assoc]
    · rw [h]
      simp [String.append_assoc]
  · rintro r rfl hok
    have h := hmsg r
    rw [hok] at h
    simpa using h
  · rintro m rfl
    simp [startModelTraining, hguard, hcsv]

/-- C8 witness: the scenario `HTTP 500`, body `"bad csv"`. -/
theorem C8_witness :
    (startModelTraining
        { initState with factoryMedicineId := "A_B", csvFile := true }
        (.ok ⟨false, 500, "bad csv"⟩)).state.trainMessage =
      "Error starting training: Training request failed: 500 bad csv" :=
  have h := C8_training_error_message
    { initState with factoryMedicineId := "A_B", csvFile := true }
    (.ok ⟨false, 500, "bad csv"⟩) (by decide) rfl
  ((h.2.1 ⟨false, 500, "bad csv"⟩ rfl rfl).1).trans (by decide)

/-- C10: a collection-form change event updates exactly the named field,
setting it to the `Number`-coerced value and leaving the other six
fields unchanged; a non-numeric value string stores `NaN`, which the
submission payload serializes as `null`; and the submission request
carries exactly the JSON payload of the current form with `status = 1`
and the factory name. -/
theorem C10_field_isolation (form : CollectionForm) (name : FormField) (v : JSNum) :
    getField (handleCollectionChange form name v) name = v ∧
    (∀ name', name' ≠ name →
      getField (handleCollectionChange form name v) name' = getField form name') ∧
    (v = none → serializeJSNum (getField (handleCollectionChange form name v) name)
      = "null") ∧
    (∀ s now resp, s.factoryMedicineId ≠ "" →
      (submitCollection s now resp).requests =
        [⟨.post, .picron, s.factoryMedicineId,
          some (payloadJson s.collectionForm 1 s.factoryName)⟩]) := by
  refine ⟨?_, ?_, ?_, ?_⟩
  · cases name <;> rfl
  · intro name' hne
    cases name <;> cases name' <;> simp_all [getField, handleCollectionChange]
  · rintro rfl
    cases name <;> rfl
  · intro s now resp hid
    rcases resp with m | r
    · simp [submitCollection, hid]
    · by_cases hok : r.ok <;> simp [submitCollection, hid, hok]

/-- C10 witness: a non-numeric dilution input stores `NaN` and the
payload serializes it as `null`. -/
theorem C10_witness :
    getField (handleCollectionChange {} .dilution none) .dilution = none ∧
    serializeJSNum (getField (handleCollectionChange {} .dilution none) .dilution)
      = "null" :=
  have h := C10_field_isolation {} .dilution none
  ⟨h.1, h.2.2.1 rfl⟩

end ETongue







